import Mathlib

/-!
Verification of the rate-limited message dispatch scheduler.

Shallow embedding of the core of the `automated-messaging-system-startup-school`
repository, and proofs about it.

Time is modelled as a natural number of milliseconds since a fixed epoch that
falls on a local midnight, so that the local calendar day of an instant `t` is
`t / msPerDay` and the local wall-clock hour boundary below `t` is
`(t / msPerHour) * msPerHour`.  Daylight-saving transitions are not modelled
(the source uses plain local time and handles no DST either).

External collaborators (the OpenAI generator, the delivery transport, the
pseudo-random history ids) are passed to the embedded functions as explicit
parameters, as the spec treats them as external interfaces.
-/

namespace AMS

/-- Milliseconds per hour. -/
def msPerHour : Nat := 60 * 60 * 1000

/-- Milliseconds per day. -/
def msPerDay : Nat := 24 * 60 * 60 * 1000

/-! ## Data model (`types.ts`) -/

/-- Model of `MessageStats` from `types.ts`: lifetime and windowed counters of the
rate limiter.  `lastSentAt` is a timestamp in ms, absent before any send. -/
structure MessageStats where
  totalSent : Nat
  totalFailed : Nat
  lastSentAt : Option Nat
  messagesToday : Nat
  messagesThisHour : Nat
  deriving DecidableEq, Repr

/-- The `rateLimit` sub-record of `AutomationSettings`. -/
structure RateLimitConfig where
  messagesPerHour : Nat
  messagesPerDay : Nat
  /-- in milliseconds -/
  delayBetweenMessages : Nat
  deriving DecidableEq, Repr

/-- Model of `AutomationSettings` from `types.ts` (the fields the embedded core reads). -/
structure AutomationSettings where
  rateLimit : RateLimitConfig
  openaiModel : String
  senderName : Option String
  deriving DecidableEq, Repr

/-- Age groups enumerated in `types.ts`. -/
inductive AgeGroup where
  | g18to25 | g26to35 | g36to45 | g46to55 | g56plus | unknown
  deriving DecidableEq, Repr

/-- Interest tags enumerated in `types.ts`. -/
inductive Interest where
  | blockchain | ai | fullStack | ecommerce | startups | technology | business | other
  deriving DecidableEq, Repr

/-- Model of `CustomerProfile` from `types.ts`.  Timestamps (`collectedAt`,
`lastMessageSent`) are ms since epoch; `collectedAt` is required by the
interface, `lastMessageSent` optional. -/
structure CustomerProfile where
  id : String
  name : String
  email : Option String
  country : Option String
  age : Option Nat
  ageGroup : Option AgeGroup
  interests : Option (List Interest)
  bio : Option String
  profileUrl : String
  collectedAt : Nat
  lastMessageSent : Option Nat
  messageCount : Nat
  deriving DecidableEq, Repr

/-- Model of `MessageHistory` from `types.ts` (one dispatch record). -/
structure MessageHistory where
  id : String
  profileId : String
  profileName : String
  message : String
  sentAt : Nat
  success : Bool
  error : Option String
  openaiModel : Option String
  deriving DecidableEq, Repr

/-- Model of `MessageTemplate` from `types.ts` (one draft/attempt record). -/
structure MessageTemplate where
  id : String
  content : String
  generatedAt : Nat
  profileId : String
  profileName : Option String
  openaiModel : Option String
  success : Bool
  error : Option String
  deriving DecidableEq, Repr

/-! ## RateLimiter (`services/openai.ts`, class `RateLimiter`) -/

/-- The limiter's visible state: the in-memory `this.stats` object and the
copy persisted in `chrome.storage.local` under the key `messageStats`
(written only by `saveStats`). -/
structure LimiterState where
  stats : MessageStats
  stored : MessageStats
  deriving DecidableEq, Repr

/-- Model of `RateLimiter.isDifferentDay`: the two instants fall on different local
calendar days (source compares year/month/day; in the midnight-aligned model
this is inequality of the day indices). -/
def isDifferentDay (t1 t2 : Nat) : Bool :=
  t1 / msPerDay ≠ t2 / msPerDay

/-- Model of `RateLimiter.isDifferentHour`: `|t1 - t2|` is at least one hour
(`Math.abs(date1 - date2) / 3600000 >= 1`). -/
def isDifferentHour (t1 t2 : Nat) : Bool :=
  (max t1 t2 - min t1 t2) ≥ msPerHour

/-- Model of `RateLimiter.updateTimeBasedCounts`: zero the daily counter when the last
send is absent or on a different calendar day; zero the hourly counter when
the last send is absent or at least one hour away. -/
def updateTimeBasedCounts (now : Nat) (s : MessageStats) : MessageStats :=
  let s1 :=
    match s.lastSentAt with
    | none => { s with messagesToday := 0 }
    | some t => if isDifferentDay now t then { s with messagesToday := 0 } else s
  match s1.lastSentAt with
  | none => { s1 with messagesThisHour := 0 }
  | some t => if isDifferentHour now t then { s1 with messagesThisHour := 0 } else s1

/-- Model of `RateLimiter.getTimeUntilNextDay`: ms until the next local midnight. -/
def getTimeUntilNextDay (now : Nat) : Nat :=
  (now / msPerDay + 1) * msPerDay - now

/-- Model of `RateLimiter.getTimeUntilNextHour`: ms until the next wall-clock hour
boundary (`setHours(h+1, 0, 0, 0)`). -/
def getTimeUntilNextHour (now : Nat) : Nat :=
  (now / msPerHour + 1) * msPerHour - now

/-- Result shape of `canSendMessage`. -/
structure CanSendResult where
  allowed : Bool
  reason : Option String
  waitTime : Option Nat
  deriving DecidableEq, Repr

/-- Model of `RateLimiter.canSendMessage`.  Runs `updateTimeBasedCounts` on the
in-memory stats (the persisted copy is not touched: `saveStats` is not
called), then checks the daily cap, then the hourly cap. -/
def canSendMessage (now : Nat) (settings : AutomationSettings)
    (st : LimiterState) : LimiterState × CanSendResult :=
  let s := updateTimeBasedCounts now st.stats
  let st' : LimiterState := { st with stats := s }
  if s.messagesToday ≥ settings.rateLimit.messagesPerDay then
    (st', { allowed := false, reason := some "Daily message limit reached",
            waitTime := some (getTimeUntilNextDay now) })
  else if s.messagesThisHour ≥ settings.rateLimit.messagesPerHour then
    (st', { allowed := false, reason := some "Hourly message limit reached",
            waitTime := some (getTimeUntilNextHour now) })
  else
    (st', { allowed := true, reason := none, waitTime := none })

/-- Model of `RateLimiter.recordMessageSent`: bump all sent counters, stamp
`lastSentAt`, persist (`saveStats`). -/
def recordMessageSent (now : Nat) (st : LimiterState) : LimiterState :=
  let s := { st.stats with
    totalSent := st.stats.totalSent + 1
    messagesToday := st.stats.messagesToday + 1
    messagesThisHour := st.stats.messagesThisHour + 1
    lastSentAt := some now }
  { stats := s, stored := s }

/-- Model of `RateLimiter.recordMessageFailed`: bump `totalFailed` only, persist. -/
def recordMessageFailed (st : LimiterState) : LimiterState :=
  let s := { st.stats with totalFailed := st.stats.totalFailed + 1 }
  { stats := s, stored := s }

/-- Model of `RateLimiter.getStats`: recompute the windows, return a copy. -/
def getStats (now : Nat) (st : LimiterState) : LimiterState × MessageStats :=
  let s := updateTimeBasedCounts now st.stats
  ({ st with stats := s }, s)

/-- The all-zero stats record used by the constructor and `resetStats`. -/
def zeroStats : MessageStats :=
  { totalSent := 0, totalFailed := 0, lastSentAt := none
    messagesToday := 0, messagesThisHour := 0 }

/-- Model of `RateLimiter.resetStats`: zero everything, persist. -/
def resetStats (_st : LimiterState) : LimiterState :=
  { stats := zeroStats, stored := zeroStats }

/-! ## JavaScript truthiness helpers -/

/-- JS `s || d` on strings: the left operand unless it is `""` (falsy). -/
def jsOrS (s d : String) : String := if s = "" then d else s

/-- JS `o || d` where `o` is an optional string (`undefined` and `""` are
falsy). -/
def jsOrOpt (o : Option String) (d : String) : String :=
  match o with
  | some s => jsOrS s d
  | none => d

/-- JS truthiness of an optional string (`if (customMessage)`):
true exactly when present and non-empty. -/
def jsTruthy (o : Option String) : Bool :=
  match o with
  | some s => s ≠ ""
  | none => false

/-! ## Case-insensitive global replacement (models `String.replace(/.../gi)`) -/

/-- If `ps` is a case-insensitive prefix of `l`, return the remainder. -/
def stripCI : List Char → List Char → Option (List Char)
  | [], l => some l
  | _ :: _, [] => none
  | p :: ps, c :: cs => if p.toLower = c.toLower then stripCI ps cs else none

/-- Left-to-right, non-overlapping, case-insensitive replacement of the
fixed pattern `p :: ps` by `rep`, continuing after the inserted replacement
(the semantics of a global `gi` regex replace of an escaped literal).  A
successful match of the pattern `p :: ps` consumes exactly `ps.length + 1`
characters of the input `c :: cs`, so the scan continues on
`cs.drop ps.length`. -/
def replaceCIAux (p : Char) (ps rep : List Char) : List Char → List Char
  | [] => []
  | c :: cs =>
    if (stripCI (p :: ps) (c :: cs)).isSome then
      rep ++ replaceCIAux p ps rep (cs.drop ps.length)
    else
      c :: replaceCIAux p ps rep cs
termination_by l => l.length
decreasing_by
  · simp only [List.length_drop, List.length_cons]
    omega
  · simp [Nat.lt_succ_iff]

/-- Model of `message.replace(/pat/gi, rep)` for a fixed literal pattern. -/
def replaceAllCI (pat rep s : String) : String :=
  match pat.data with
  | [] => s
  | p :: ps => String.mk (replaceCIAux p ps rep.data s.data)

/-- One alternative of the duplicate-greeting regex
`/^(hi|hello|hey)[^a-z]/i`: `g` matches case-insensitively at the start and
the next character is not an ASCII letter (a character must exist: the
class consumes one). -/
def greetTest (g body : String) : Bool :=
  match stripCI g.data body.data with
  | some (c :: _) => !(c.toLower.isLower)
  | some [] => false
  | none => false

/-- Model of `greetingRegex.test(body)` for `/^(hi|hello|hey)[^a-z]/i`. -/
def hasGreeting (body : String) : Bool :=
  greetTest "hi" body || greetTest "hello" body || greetTest "hey" body

/-! ## MessageDeliveryService (`services/messageDelivery.ts`) -/

/-- Model of `MessageDeliveryService.applyNameTemplate`: substitute the placeholder
tokens for the sender and recipient display names, trim, prepend a greeting
unless one is already there, and append the fixed closing signature. -/
def applyNameTemplate (settings : AutomationSettings) (message : String)
    (profile : CustomerProfile) : String :=
  let sender := jsOrS (jsOrOpt settings.senderName "").trim "Your Name"
  let receiver := jsOrS (jsOrS profile.name "").trim "there"
  let body :=
    (replaceAllCI "<Recipient>" receiver
      (replaceAllCI "\x7bRecipient\x7d" receiver
        (replaceAllCI "[Recipient]" receiver
          (replaceAllCI "<Your Name>" sender
            (replaceAllCI "\x7bYour Name\x7d" sender
              (replaceAllCI "[Your Name]" sender message)))))).trim
  let salutation := if hasGreeting body then "" else "Hi " ++ receiver ++ ",\n\n"
  let closing := "\n\nBest,\n" ++ sender
  salutation ++ body ++ closing

/-- The scheduler-visible mutable world: the limiter state plus the three
persisted collections (`messageHistory`, `messageTemplates`, `profiles`). -/
structure WorldState where
  limiter : LimiterState
  messageHistory : List MessageHistory
  messageTemplates : List MessageTemplate
  profiles : List CustomerProfile
  deriving DecidableEq, Repr

/-- Model of `MessageDeliveryService.saveMessageHistory`: append a record, keep only
the last 500 entries (oldest shifted out). `freshId` stands for the
random id the source generates. -/
def saveMessageHistory (freshId : String) (now : Nat)
    (settings : AutomationSettings) (profile : CustomerProfile)
    (message : String) (success : Bool) (error : Option String)
    (l : List MessageHistory) : List MessageHistory :=
  let entry : MessageHistory :=
    { id := freshId, profileId := profile.id, profileName := profile.name
      message := message, sentAt := now, success := success, error := error
      openaiModel := some settings.openaiModel }
  let l' := l ++ [entry]
  if l'.length > 500 then l'.drop 1 else l'

/-- Model of `MessageDeliveryService.saveMessageTemplate`: append a record, keep only
the last 1000 entries. -/
def saveMessageTemplate (freshId : String) (now : Nat)
    (settings : AutomationSettings) (profile : CustomerProfile)
    (message : String) (success : Bool) (error : Option String)
    (l : List MessageTemplate) : List MessageTemplate :=
  let entry : MessageTemplate :=
    { id := freshId, content := message, generatedAt := now
      profileId := profile.id, profileName := some profile.name
      openaiModel := some settings.openaiModel, success := success
      error := error }
  let l' := l ++ [entry]
  if l'.length > 1000 then l'.drop 1 else l'

/-- Model of `MessageDeliveryService.updateProfileMessageCount`: bump the in-memory
profile, then replace it in (or append it to) the persisted list. -/
def updateProfileMessageCount (now : Nat) (profile : CustomerProfile)
    (profiles : List CustomerProfile) : CustomerProfile × List CustomerProfile :=
  let p' := { profile with
    messageCount := profile.messageCount + 1
    lastMessageSent := some now }
  match profiles.findIdx? (fun q => q.id == p'.id) with
  | some i => (p', profiles.set i p')
  | none => (p', profiles ++ [p'])

/-- Result shape of `sendMessage`. -/
structure SendResult where
  success : Bool
  message : Option String
  error : Option String
  deriving DecidableEq, Repr

/-- Everything observable about one `sendMessage` call: its returned result,
the final world, the (possibly mutated) profile argument, whether the
OpenAI generator was invoked, and the duration of the anti-spam `delay()`
suspension that was performed (0 when none). -/
structure SendOutcome where
  result : SendResult
  world : WorldState
  profile : CustomerProfile
  generatorInvoked : Bool
  pacingDelayMs : Nat
  deriving DecidableEq, Repr

/-- The delivery half of `sendMessage` (the code from the anti-spam delay
on).  `deliverOk` is the boolean returned by the external transport
`actuallySendMessage` (the source's placeholder always yields `true` and
never throws, so the surrounding catch clause is unreachable). -/
def deliverPhase (now : Nat) (settings : AutomationSettings)
    (deliverOk : Bool) (histId templId : String) (w : WorldState)
    (profile : CustomerProfile) (message : String) (genInvoked : Bool) :
    SendOutcome :=
  let pace := if settings.rateLimit.delayBetweenMessages > 0 then
    settings.rateLimit.delayBetweenMessages else 0
  if deliverOk then
    let lim := recordMessageSent now w.limiter
    let templates :=
      saveMessageTemplate templId now settings profile message true none
        w.messageTemplates
    let history :=
      saveMessageHistory histId now settings profile message true none
        w.messageHistory
    let pp := updateProfileMessageCount now profile w.profiles
    { result := { success := true, message := some message, error := none }
      world := { limiter := lim, messageHistory := history
                 messageTemplates := templates, profiles := pp.2 }
      profile := pp.1, generatorInvoked := genInvoked, pacingDelayMs := pace }
  else
    let lim := recordMessageFailed w.limiter
    let templates :=
      saveMessageTemplate templId now settings profile message false
        (some "Failed to send message") w.messageTemplates
    let history :=
      saveMessageHistory histId now settings profile message false
        (some "Failed to send message") w.messageHistory
    { result := { success := false, message := none
                  error := some "Failed to send message" }
      world := { limiter := lim, messageHistory := history
                 messageTemplates := templates, profiles := w.profiles }
      profile := profile, generatorInvoked := genInvoked
      pacingDelayMs := pace }

/-- Model of `MessageDeliveryService.sendMessage`.  External collaborators appear as
parameters: `configured` is `isOpenAIConfigured()`, `genResult` the outcome
of `generatePersonalizedMessage` (an exception carries its message string),
`deliverOk` the transport outcome, `histId`/`templId` the generated record
ids. -/
def sendMessage (now : Nat) (settings : AutomationSettings)
    (configured : Bool) (genResult : Except String String) (deliverOk : Bool)
    (histId templId : String) (w : WorldState) (profile : CustomerProfile)
    (customMessage : Option String) : SendOutcome :=
  let c := canSendMessage now settings w.limiter
  let w1 : WorldState := { w with limiter := c.1 }
  if c.2.allowed = false then
    { result := { success := false, message := none
                  error := some (jsOrOpt c.2.reason "Rate limit exceeded") }
      world := w1, profile := profile, generatorInvoked := false
      pacingDelayMs := 0 }
  else if jsTruthy customMessage then
    deliverPhase now settings deliverOk histId templId w1 profile
      (customMessage.getD "") false
  else if configured = false then
    { result := { success := false, message := none
                  error := some "OpenAI API key not configured" }
      world := w1, profile := profile, generatorInvoked := false
      pacingDelayMs := 0 }
  else
    match genResult with
    | Except.error e =>
      let w2 : WorldState := { w1 with
        limiter := recordMessageFailed w1.limiter
        messageHistory :=
          saveMessageHistory histId now settings profile "" false
            (some ("Failed to generate: " ++ e)) w1.messageHistory }
      { result := { success := false, message := none
                    error := some ("Failed to generate message: " ++ e) }
        world := w2, profile := profile, generatorInvoked := true
        pacingDelayMs := 0 }
    | Except.ok g =>
      deliverPhase now settings deliverOk histId templId w1 profile
        (applyNameTemplate settings g profile) true

/-! ## Eligibility filter (`background.ts`, `runAutomationCycle`) -/

/-- The eligibility predicate of `runAutomationCycle`, generalized over the
cooldown expressed in days (the source inlines the constant `7`; the
division is exact rational arithmetic, modelling the float division whose
result is compared to a small integer). -/
def isEligibleWithCooldown (cooldownDays : ℚ) (now : Nat)
    (p : CustomerProfile) : Bool :=
  if p.messageCount = 0 then true
  else
    match p.lastMessageSent with
    | none => true
    | some last =>
      decide (((now : ℚ) - (last : ℚ)) / (1000 * 60 * 60 * 24) ≥ cooldownDays)

/-- The eligibility predicate exactly as in the source: don't message the
same person more than once per week. -/
def isEligibleProfile (now : Nat) (p : CustomerProfile) : Bool :=
  isEligibleWithCooldown 7 now p

/-! ## Serialization (`utils/serialization.ts`) -/

/-- The ISO-8601 UTC rendering (`Date.prototype.toISOString`) of an instant,
modelled by the instant itself: at millisecond precision the rendering is
injective and `new Date(s)` parses it back to the same instant.  The
rendered string is never empty, hence always truthy. -/
structure ISODateString where
  ms : Nat
  deriving DecidableEq, Repr

/-- Model of `date.toISOString()`. -/
def toISOString (t : Nat) : ISODateString := ⟨t⟩

/-- Model of `new Date(isoString).getTime()`. -/
def parseISO (d : ISODateString) : Nat := d.ms

/-- The wire shape produced by `serializeProfile` (dates rendered as ISO
strings).  `collectedAt` is optional here because `deserializeProfile`
guards its absence, although `serializeProfile` always emits it. -/
structure SerializedProfile where
  id : String
  name : String
  email : Option String
  country : Option String
  age : Option Nat
  ageGroup : Option AgeGroup
  interests : Option (List Interest)
  bio : Option String
  profileUrl : String
  collectedAt : Option ISODateString
  lastMessageSent : Option ISODateString
  messageCount : Nat
  deriving DecidableEq, Repr

/-- Model of `serializeProfile`: copy the plain fields, spread-copy `interests` when
present (an array, even empty, is truthy), render the dates.  The
interface types `collectedAt` as a `Date`, so the `instanceof Date` branch
applies; the fallbacks for ill-typed inputs are unreachable on well-formed
profiles.  `messageCount || 0` is written out literally. -/
def serializeProfile (p : CustomerProfile) : SerializedProfile :=
  { id := p.id, name := p.name, email := p.email, country := p.country
    age := p.age, ageGroup := p.ageGroup
    interests := p.interests.map (fun ts => ts)
    bio := p.bio, profileUrl := p.profileUrl
    collectedAt := some (toISOString p.collectedAt)
    lastMessageSent := p.lastMessageSent.map toISOString
    messageCount := if p.messageCount = 0 then 0 else p.messageCount }

/-- Model of `deserializeProfile`: parse the date strings back (a present ISO string
is truthy and not a `Date`, so `new Date(string)` is taken); an absent
`collectedAt` falls back to `new Date()`, i.e. `now`. -/
def deserializeProfile (now : Nat) (s : SerializedProfile) : CustomerProfile :=
  { id := s.id, name := s.name, email := s.email, country := s.country
    age := s.age, ageGroup := s.ageGroup
    interests := s.interests.map (fun ts => ts)
    bio := s.bio, profileUrl := s.profileUrl
    collectedAt :=
      match s.collectedAt with
      | some d => parseISO d
      | none => now
    lastMessageSent := s.lastMessageSent.map parseISO
    messageCount := if s.messageCount = 0 then 0 else s.messageCount }

/-! ## Reachable limiter states -/

/-- The spec's ledger invariant: each window counter is bounded by the
lifetime sent counter. -/
def statsInv (s : MessageStats) : Prop :=
  s.messagesThisHour ≤ s.totalSent ∧ s.messagesToday ≤ s.totalSent

/-- One ledger operation of the `RateLimiter`: a successful send, a failed
send, an admission check, a stats read, a reset, or a reload of the
persisted stats (`loadStats`, which copies the stored record over the
in-memory one and recomputes the windows). -/
inductive LimiterStep : LimiterState → LimiterState → Prop where
  | sent (now : Nat) (st : LimiterState) :
      LimiterStep st (recordMessageSent now st)
  | failed (st : LimiterState) : LimiterStep st (recordMessageFailed st)
  | admission (now : Nat) (settings : AutomationSettings) (st : LimiterState) :
      LimiterStep st (canSendMessage now settings st).1
  | read (now : Nat) (st : LimiterState) : LimiterStep st (getStats now st).1
  | reset (st : LimiterState) : LimiterStep st (resetStats st)
  | load (now : Nat) (st : LimiterState) :
      LimiterStep st { st with stats := updateTimeBasedCounts now st.stored }

/-- Limiter states reachable from the zero-initialized state by ledger
operations. -/
inductive LimiterReachable : LimiterState → Prop where
  | init : LimiterReachable { stats := zeroStats, stored := zeroStats }
  | step {st st' : LimiterState} :
      LimiterReachable st → LimiterStep st st' → LimiterReachable st'

/-! ## Concrete fixtures used by witnesses and counterexamples -/

/-- A small concrete profile. -/
def sampleProfile : CustomerProfile :=
  { id := "p1", name := "Ada", email := none, country := none, age := none
    ageGroup := none, interests := none, bio := none, profileUrl := "u"
    collectedAt := 0, lastMessageSent := none, messageCount := 0 }

/-- A world whose limiter is zero-initialized and whose stores are empty. -/
def sampleWorld : WorldState :=
  { limiter := { stats := zeroStats, stored := zeroStats }
    messageHistory := [], messageTemplates := [], profiles := [] }

/-- A limiter state mid-day: five lifetime sends, last one at the epoch
midnight, three in the current day window and two in the current hour
window, faithfully persisted. -/
def midDayStats : MessageStats :=
  { totalSent := 5, totalFailed := 0, lastSentAt := some 0
    messagesToday := 3, messagesThisHour := 2 }

/-- A world whose limiter holds `midDayStats`. -/
def midDayWorld : WorldState :=
  { limiter := { stats := midDayStats, stored := midDayStats }
    messageHistory := [], messageTemplates := [], profiles := [] }

/-! # Theorems -/

/-! ## Supporting lemmas about the limiter -/

theorem updateTimeBasedCounts_spec (now : Nat) (s : MessageStats) :
    (updateTimeBasedCounts now s).totalSent = s.totalSent ∧
    (updateTimeBasedCounts now s).totalFailed = s.totalFailed ∧
    (updateTimeBasedCounts now s).lastSentAt = s.lastSentAt ∧
    ((updateTimeBasedCounts now s).messagesToday = 0 ∨
      (updateTimeBasedCounts now s).messagesToday = s.messagesToday) ∧
    ((updateTimeBasedCounts now s).messagesThisHour = 0 ∨
      (updateTimeBasedCounts now s).messagesThisHour = s.messagesThisHour) := by
  obtain ⟨ts, tf, ls, md, mh⟩ := s
  cases ls with
  | none => simp [updateTimeBasedCounts]
  | some t =>
    by_cases hd : isDifferentDay now t <;> by_cases hh : isDifferentHour now t <;>
      simp [updateTimeBasedCounts, hd, hh]

theorem updateTimeBasedCounts_idem (now : Nat) (s : MessageStats) :
    updateTimeBasedCounts now (updateTimeBasedCounts now s) =
      updateTimeBasedCounts now s := by
  obtain ⟨ts, tf, ls, md, mh⟩ := s
  cases ls with
  | none => simp [updateTimeBasedCounts]
  | some t =>
    by_cases hd : isDifferentDay now t <;> by_cases hh : isDifferentHour now t <;>
      simp [updateTimeBasedCounts, hd, hh]

theorem canSendMessage_fst (now : Nat) (settings : AutomationSettings)
    (st : LimiterState) :
    (canSendMessage now settings st).1 =
      { st with stats := updateTimeBasedCounts now st.stats } := by
  unfold canSendMessage
  dsimp only
  split
  · rfl
  · split <;> rfl

theorem canSendMessage_idem (now : Nat) (settings : AutomationSettings)
    (st : LimiterState) :
    canSendMessage now settings (canSendMessage now settings st).1 =
      canSendMessage now settings st := by
  rw [canSendMessage_fst]
  simp only [canSendMessage, updateTimeBasedCounts_idem]

/-! ## C1: daily check precedes hourly check -/

/-- C1: for every stats state and policy, `canSendMessage` checks the daily
cap on the current (rolled-over) window counters first — whenever the daily
counter has reached `messagesPerDay` it denies with the daily reason
regardless of the hourly counter; otherwise an hourly breach denies with
the hourly reason; otherwise it allows. -/
theorem canSend_daily_check_precedes_hourly (now : Nat)
    (settings : AutomationSettings) (st : LimiterState) :
    ((updateTimeBasedCounts now st.stats).messagesToday ≥
        settings.rateLimit.messagesPerDay →
      (canSendMessage now settings st).2 =
        { allowed := false, reason := some "Daily message limit reached",
          waitTime := some (getTimeUntilNextDay now) }) ∧
    ((updateTimeBasedCounts now st.stats).messagesToday <
        settings.rateLimit.messagesPerDay →
      (updateTimeBasedCounts now st.stats).messagesThisHour ≥
        settings.rateLimit.messagesPerHour →
      (canSendMessage now settings st).2 =
        { allowed := false, reason := some "Hourly message limit reached",
          waitTime := some (getTimeUntilNextHour now) }) ∧
    ((updateTimeBasedCounts now st.stats).messagesToday <
        settings.rateLimit.messagesPerDay →
      (updateTimeBasedCounts now st.stats).messagesThisHour <
        settings.rateLimit.messagesPerHour →
      (canSendMessage now settings st).2 =
        { allowed := true, reason := none, waitTime := none }) := by
  refine ⟨fun h1 => ?_, fun h1 h2 => ?_, fun h1 h2 => ?_⟩
  · simp [canSendMessage, h1]
  · simp [canSendMessage, not_le.mpr h1, h2]
  · simp [canSendMessage, not_le.mpr h1, not_le.mpr h2]

/-- Witness for C1: a state blocked by both caps is denied with the daily
reason (hourly counter 1 is also at its cap 1, daily counter 1 is at cap
1). -/
theorem canSend_daily_check_precedes_hourly_witness :
    (canSendMessage 0 ⟨⟨1, 1, 0⟩, "m", none⟩
        ⟨⟨3, 0, some 0, 1, 1⟩, zeroStats⟩).2 =
      { allowed := false, reason := some "Daily message limit reached",
        waitTime := some (getTimeUntilNextDay 0) } :=
  (canSend_daily_check_precedes_hourly 0 ⟨⟨1, 1, 0⟩, "m", none⟩
    ⟨⟨3, 0, some 0, 1, 1⟩, zeroStats⟩).1 (by decide)

/-! ## C5: the hourly-denial wait time -/

/-- C5 (amended): whenever `canSendMessage` denies for the hourly limit,
the returned `waitTime` is the time until the next wall-clock hour boundary
(`setHours(h+1, 0, 0, 0)`), not the time until one hour has elapsed since
`lastSentAt`. -/
theorem canSend_hourly_waitTime_next_clock_hour (now : Nat)
    (settings : AutomationSettings) (st : LimiterState)
    (h1 : (updateTimeBasedCounts now st.stats).messagesToday <
      settings.rateLimit.messagesPerDay)
    (h2 : (updateTimeBasedCounts now st.stats).messagesThisHour ≥
      settings.rateLimit.messagesPerHour) :
    (canSendMessage now settings st).2 =
      { allowed := false, reason := some "Hourly message limit reached",
        waitTime := some ((now / msPerHour + 1) * msPerHour - now) } := by
  simp [canSendMessage, not_le.mpr h1, h2, getTimeUntilNextHour]

/-- Witness for C5's amended theorem at a concrete hourly-blocked state. -/
theorem canSend_hourly_waitTime_witness :
    (canSendMessage 3000000 ⟨⟨1, 10, 0⟩, "m", none⟩
        ⟨⟨1, 0, some 600000, 1, 1⟩, zeroStats⟩).2 =
      { allowed := false, reason := some "Hourly message limit reached",
        waitTime := some ((3000000 / msPerHour + 1) * msPerHour - 3000000) } :=
  canSend_hourly_waitTime_next_clock_hour 3000000 ⟨⟨1, 10, 0⟩, "m", none⟩
    ⟨⟨1, 0, some 600000, 1, 1⟩, zeroStats⟩ (by decide) (by decide)

/-- Counterexample for C5 as stated: at 00:50, with the hourly window begun
by a send at 00:10, the code returns 10 minutes (until the 01:00 clock
boundary), not the 20 minutes left of the `lastSentAt`-anchored hour
window. -/
theorem canSend_hourly_waitTime_counterexample :
    (canSendMessage 3000000 ⟨⟨1, 10, 0⟩, "m", none⟩
        ⟨⟨1, 0, some 600000, 1, 1⟩, zeroStats⟩).2.reason =
      some "Hourly message limit reached" ∧
    (canSendMessage 3000000 ⟨⟨1, 10, 0⟩, "m", none⟩
        ⟨⟨1, 0, some 600000, 1, 1⟩, zeroStats⟩).2.waitTime = some 600000 ∧
    600000 + msPerHour - 3000000 = 1200000 ∧
    (canSendMessage 3000000 ⟨⟨1, 10, 0⟩, "m", none⟩
        ⟨⟨1, 0, some 600000, 1, 1⟩, zeroStats⟩).2.waitTime ≠
      some (600000 + msPerHour - 3000000) := by decide

/-! ## C6: what the admission check does and does not mutate -/

/-- C6 (amended): `canSendMessage` never persists (the stored copy is
untouched) and never changes `totalSent`, `totalFailed` or `lastSentAt`;
the in-memory window counters are either kept or zeroed by the rollover
recomputation; and the call is idempotent — an immediately repeated call at
the same instant returns the same result and changes nothing further. -/
theorem canSend_frame_and_idempotent (now : Nat)
    (settings : AutomationSettings) (st : LimiterState) :
    (canSendMessage now settings st).1.stored = st.stored ∧
    (canSendMessage now settings st).1.stats.totalSent =
      st.stats.totalSent ∧
    (canSendMessage now settings st).1.stats.totalFailed =
      st.stats.totalFailed ∧
    (canSendMessage now settings st).1.stats.lastSentAt =
      st.stats.lastSentAt ∧
    ((canSendMessage now settings st).1.stats.messagesToday = 0 ∨
      (canSendMessage now settings st).1.stats.messagesToday =
        st.stats.messagesToday) ∧
    ((canSendMessage now settings st).1.stats.messagesThisHour = 0 ∨
      (canSendMessage now settings st).1.stats.messagesThisHour =
        st.stats.messagesThisHour) ∧
    canSendMessage now settings (canSendMessage now settings st).1 =
      canSendMessage now settings st := by
  have hf := canSendMessage_fst now settings st
  have hs := updateTimeBasedCounts_spec now st.stats
  rw [hf]
  exact ⟨rfl, hs.1, hs.2.1, hs.2.2.1, hs.2.2.2.1, hs.2.2.2.2,
    by rw [← hf]; exact canSendMessage_idem now settings st⟩

/-- Counterexample for C6 as stated: with the last send two hours ago, the
admission check zeroes the in-memory hourly counter — the `UsageStats`
object is mutated by `canSendMessage`. -/
theorem canSend_mutates_counterexample :
    (canSendMessage 7200000 ⟨⟨5, 3, 0⟩, "m", none⟩
        ⟨midDayStats, midDayStats⟩).1.stats.messagesThisHour = 0 ∧
    midDayStats.messagesThisHour = 2 ∧
    (canSendMessage 7200000 ⟨⟨5, 3, 0⟩, "m", none⟩
        ⟨midDayStats, midDayStats⟩).1.stats ≠ midDayStats := by decide

/-! ## C7: the window counters never exceed the lifetime counter -/

/-- C7: `sentInCurrentHour ≤ totalSent` and `sentInCurrentDay ≤ totalSent`
hold in the zero-initialized state and are preserved by every ledger
operation, hence hold (for both the in-memory and the persisted record) in
every reachable limiter state. -/
theorem limiter_window_counters_bounded (st : LimiterState)
    (h : LimiterReachable st) : statsInv st.stats ∧ statsInv st.stored := by
  induction h with
  | init => exact ⟨⟨Nat.le_refl 0, Nat.le_refl 0⟩, Nat.le_refl 0, Nat.le_refl 0⟩
  | step _ hs ih =>
    obtain ⟨⟨ih1, ih2⟩, ih3, ih4⟩ := ih
    have hupd : ∀ (n : Nat) (s : MessageStats), statsInv s →
        statsInv (updateTimeBasedCounts n s) := by
      intro n s hsi
      obtain ⟨hts, _, _, hd, hh⟩ := updateTimeBasedCounts_spec n s
      constructor
      · rcases hh with h0 | h0 <;> rw [h0, hts] <;> [exact Nat.zero_le _;
          exact hsi.1]
      · rcases hd with h0 | h0 <;> rw [h0, hts] <;> [exact Nat.zero_le _;
          exact hsi.2]
    cases hs with
    | sent now s0 =>
      exact ⟨⟨Nat.succ_le_succ ih1, Nat.succ_le_succ ih2⟩,
        Nat.succ_le_succ ih1, Nat.succ_le_succ ih2⟩
    | failed s0 => exact ⟨⟨ih1, ih2⟩, ih1, ih2⟩
    | admission now settings s0 =>
      rw [canSendMessage_fst]
      exact ⟨hupd now _ ⟨ih1, ih2⟩, ih3, ih4⟩
    | read now s0 => exact ⟨hupd now _ ⟨ih1, ih2⟩, ih3, ih4⟩
    | reset s0 =>
      exact ⟨⟨Nat.le_refl 0, Nat.le_refl 0⟩, Nat.le_refl 0, Nat.le_refl 0⟩
    | load now s0 => exact ⟨hupd now _ ⟨ih3, ih4⟩, ih3, ih4⟩

/-- Witness for C7: the invariant holds after a concrete reachable
two-operation run (a send at `t = 5` followed by an admission check two
hours later). -/
theorem limiter_window_counters_bounded_witness :
    statsInv (canSendMessage 7200005 ⟨⟨5, 5, 0⟩, "m", none⟩
      (recordMessageSent 5 ⟨zeroStats, zeroStats⟩)).1.stats ∧
    statsInv (canSendMessage 7200005 ⟨⟨5, 5, 0⟩, "m", none⟩
      (recordMessageSent 5 ⟨zeroStats, zeroStats⟩)).1.stored :=
  limiter_window_counters_bounded _
    (LimiterReachable.step
      (LimiterReachable.step LimiterReachable.init (LimiterStep.sent 5 _))
      (LimiterStep.admission 7200005 ⟨⟨5, 5, 0⟩, "m", none⟩ _))

/-! ## C8: the eligibility predicate -/

/-- C8: the source's eligibility test is the 7-day instance of the
cooldown-parameterized predicate, and for every cooldown the predicate
holds iff the recipient was never messaged, or has no last-contact
timestamp, or the elapsed time is at least the cooldown (so it is true for
a never-contacted recipient, false strictly inside the cooldown, and flips
to true exactly at the boundary, boundary included). -/
theorem isEligible_iff (c : ℚ) (now : Nat) (p : CustomerProfile) :
    isEligibleProfile now p = isEligibleWithCooldown 7 now p ∧
    (isEligibleWithCooldown c now p = true ↔
      p.messageCount = 0 ∨ p.lastMessageSent = none ∨
      ∃ l, p.lastMessageSent = some l ∧
        c * ((msPerDay : Nat) : ℚ) ≤ (now : ℚ) - (l : ℚ)) := by
  refine ⟨rfl, ?_⟩
  unfold isEligibleWithCooldown
  by_cases h0 : p.messageCount = 0
  · simp [h0]
  · cases hl : p.lastMessageSent with
    | none => simp [h0, hl]
    | some l =>
      simp only [h0, hl, if_false, decide_eq_true_eq, Option.some.injEq,
        reduceCtorEq, false_or, exists_eq_left']
      rw [ge_iff_le, le_div_iff₀ (by norm_num)]
      constructor
      · intro h
        exact le_trans (by norm_num [msPerDay]) h
      · intro h
        exact le_trans (by norm_num [msPerDay]) h

/-! ## C9: serialization round-trip -/

/-- C9: deserializing a serialized profile restores every field, the
timestamp fields included. -/
theorem serialize_roundtrip (now : Nat) (p : CustomerProfile) :
    deserializeProfile now (serializeProfile p) = p := by
  rcases p with ⟨i, nm, em, co, ag, gr, ints, bio, url, col, last, mc⟩
  cases ints <;> cases last <;> rcases eq_or_ne mc 0 with h | h <;>
    simp [serializeProfile, deserializeProfile, toISOString, parseISO, h]

/-! ## Supporting lemmas about the delivery phase -/

theorem deliverPhase_generatorInvoked (now : Nat)
    (settings : AutomationSettings) (dOk : Bool) (hid tid : String)
    (w : WorldState) (p : CustomerProfile) (msg : String) (gi : Bool) :
    (deliverPhase now settings dOk hid tid w p msg gi).generatorInvoked =
      gi := by
  cases dOk <;> simp [deliverPhase]

theorem deliverPhase_pacing (now : Nat) (settings : AutomationSettings)
    (dOk : Bool) (hid tid : String) (w : WorldState) (p : CustomerProfile)
    (msg : String) (gi : Bool) :
    (deliverPhase now settings dOk hid tid w p msg gi).pacingDelayMs =
      settings.rateLimit.delayBetweenMessages := by
  cases dOk <;> simp only [deliverPhase] <;> split <;> simp <;> omega

theorem deliverPhase_result_ok (now : Nat) (settings : AutomationSettings)
    (hid tid : String) (w : WorldState) (p : CustomerProfile) (msg : String)
    (gi : Bool) :
    (deliverPhase now settings true hid tid w p msg gi).result =
      { success := true, message := some msg, error := none } := by
  simp [deliverPhase]

/-! ## C2: a rate-limited denial performs no effects -/

/-- C2 (amended): when the limiter denies, `sendMessage` fails with the
limiter's reason and performs no effects — no `recordMessageFailed`, no
history or template write, no profile mutation, no persistence; the only
state change is the admission check's own in-memory window-rollover
recomputation, which can only keep or zero the two window counters. -/
theorem send_denied_no_effects (now : Nat) (settings : AutomationSettings)
    (configured : Bool) (genResult : Except String String) (deliverOk : Bool)
    (histId templId : String) (w : WorldState) (profile : CustomerProfile)
    (customMessage : Option String)
    (h : (canSendMessage now settings w.limiter).2.allowed = false) :
    (sendMessage now settings configured genResult deliverOk histId templId
      w profile customMessage).result.success = false ∧
    (sendMessage now settings configured genResult deliverOk histId templId
      w profile customMessage).result.error =
        some (jsOrOpt (canSendMessage now settings w.limiter).2.reason
          "Rate limit exceeded") ∧
    (sendMessage now settings configured genResult deliverOk histId templId
      w profile customMessage).world.messageHistory = w.messageHistory ∧
    (sendMessage now settings configured genResult deliverOk histId templId
      w profile customMessage).world.messageTemplates =
        w.messageTemplates ∧
    (sendMessage now settings configured genResult deliverOk histId templId
      w profile customMessage).world.profiles = w.profiles ∧
    (sendMessage now settings configured genResult deliverOk histId templId
      w profile customMessage).profile = profile ∧
    (sendMessage now settings configured genResult deliverOk histId templId
      w profile customMessage).world.limiter.stored = w.limiter.stored ∧
    (sendMessage now settings configured genResult deliverOk histId templId
      w profile customMessage).world.limiter.stats.totalSent =
        w.limiter.stats.totalSent ∧
    (sendMessage now settings configured genResult deliverOk histId templId
      w profile customMessage).world.limiter.stats.totalFailed =
        w.limiter.stats.totalFailed ∧
    (sendMessage now settings configured genResult deliverOk histId templId
      w profile customMessage).world.limiter.stats.lastSentAt =
        w.limiter.stats.lastSentAt ∧
    ((sendMessage now settings configured genResult deliverOk histId templId
      w profile customMessage).world.limiter.stats.messagesToday = 0 ∨
     (sendMessage now settings configured genResult deliverOk histId templId
      w profile customMessage).world.limiter.stats.messagesToday =
        w.limiter.stats.messagesToday) ∧
    ((sendMessage now settings configured genResult deliverOk histId templId
      w profile customMessage).world.limiter.stats.messagesThisHour = 0 ∨
     (sendMessage now settings configured genResult deliverOk histId templId
      w profile customMessage).world.limiter.stats.messagesThisHour =
        w.limiter.stats.messagesThisHour) ∧
    (sendMessage now settings configured genResult deliverOk histId templId
      w profile customMessage).generatorInvoked = false ∧
    (sendMessage now settings configured genResult deliverOk histId templId
      w profile customMessage).pacingDelayMs = 0 := by
  obtain ⟨hs1, hs2, hs3, hs4, hs5⟩ :=
    updateTimeBasedCounts_spec now w.limiter.stats
  have hsend : sendMessage now settings configured genResult deliverOk
      histId templId w profile customMessage =
      ⟨⟨false, none,
          some (jsOrOpt (canSendMessage now settings w.limiter).2.reason
            "Rate limit exceeded")⟩,
        { w with limiter := (canSendMessage now settings w.limiter).1 },
        profile, false, 0⟩ := by
    simp [sendMessage, h]
  rw [hsend, canSendMessage_fst]
  exact ⟨rfl, rfl, rfl, rfl, rfl, rfl, rfl, hs1, hs2, hs3, hs4, hs5, rfl, rfl⟩

/-- Witness for C2's amended theorem: a concrete daily-blocked send fails. -/
theorem send_denied_no_effects_witness :
    (sendMessage 7200000 ⟨⟨5, 3, 0⟩, "m", none⟩ true (Except.ok "g") true
        "h" "t" midDayWorld sampleProfile none).result.success = false :=
  (send_denied_no_effects 7200000 ⟨⟨5, 3, 0⟩, "m", none⟩ true (Except.ok "g")
    true "h" "t" midDayWorld sampleProfile none (by decide)).1

/-- Counterexample for C2 as stated: a denial two hours after the last send
zeroes the in-memory hourly window counter, so "no state changes at all" is
false — the denial does leave the persisted stats, history and recipient
untouched, but the in-memory `sentInCurrentHour` drops from 2 to 0. -/
theorem send_denied_mutates_counterexample :
    (sendMessage 7200000 ⟨⟨5, 3, 0⟩, "m", none⟩ true (Except.ok "g") true
        "h" "t" midDayWorld sampleProfile none).result.success = false ∧
    (sendMessage 7200000 ⟨⟨5, 3, 0⟩, "m", none⟩ true (Except.ok "g") true
        "h" "t" midDayWorld sampleProfile none).result.error =
      some "Daily message limit reached" ∧
    (sendMessage 7200000 ⟨⟨5, 3, 0⟩, "m", none⟩ true (Except.ok "g") true
        "h" "t" midDayWorld sampleProfile none).world.limiter.stats.messagesThisHour = 0 ∧
    midDayWorld.limiter.stats.messagesThisHour = 2 := by decide

/-! ## C3: the override path -/

/-- C3 (amended): with a non-empty `overrideContent` and an allowing
limiter, `sendMessage` never invokes the generator and delivers the
override text verbatim (no placeholder substitution, greeting or signature)
— but the anti-spam pacing delay is performed on this path too, exactly as
on the AI path (`pacingDelayMs` equals the configured
`delayBetweenMessages`, which the source sleeps whenever it is positive). -/
theorem send_override_verbatim (now : Nat) (settings : AutomationSettings)
    (configured : Bool) (genResult : Except String String) (deliverOk : Bool)
    (histId templId : String) (w : WorldState) (profile : CustomerProfile)
    (m : String) (hm : m ≠ "")
    (ha : (canSendMessage now settings w.limiter).2.allowed = true) :
    (sendMessage now settings configured genResult deliverOk histId templId
      w profile (some m)).generatorInvoked = false ∧
    (sendMessage now settings configured genResult deliverOk histId templId
      w profile (some m)).pacingDelayMs =
        settings.rateLimit.delayBetweenMessages ∧
    (deliverOk = true →
      (sendMessage now settings configured genResult deliverOk histId templId
        w profile (some m)).result =
          { success := true, message := some m, error := none }) := by
  have hsend : sendMessage now settings configured genResult deliverOk
      histId templId w profile (some m) =
      deliverPhase now settings deliverOk histId templId
        { w with limiter := (canSendMessage now settings w.limiter).1 }
        profile m false := by
    simp [sendMessage, ha, jsTruthy, hm]
  rw [hsend]
  refine ⟨deliverPhase_generatorInvoked _ _ _ _ _ _ _ _ _,
    deliverPhase_pacing _ _ _ _ _ _ _ _ _, fun hd => ?_⟩
  subst hd
  exact deliverPhase_result_ok _ _ _ _ _ _ _ _

/-- Witness for C3's amended theorem at a concrete allowed state. -/
theorem send_override_verbatim_witness :
    (sendMessage 0 ⟨⟨5, 5, 5000⟩, "m", none⟩ true (Except.ok "g") true
        "h" "t" sampleWorld sampleProfile (some "hello")).generatorInvoked =
      false :=
  (send_override_verbatim 0 ⟨⟨5, 5, 5000⟩, "m", none⟩ true (Except.ok "g")
    true "h" "t" sampleWorld sampleProfile "hello" (by decide) (by decide)).1

/-- Counterexample for C3 as stated: the pacing delay is performed on the
override path as well — with `delayBetweenMessages = 5000` the pipeline
suspends for 5000 ms before delivering the override text. -/
theorem send_override_paces_counterexample :
    (sendMessage 0 ⟨⟨5, 5, 5000⟩, "m", none⟩ true (Except.ok "g") true
        "h" "t" sampleWorld sampleProfile (some "hello")).pacingDelayMs =
      5000 ∧
    (sendMessage 0 ⟨⟨5, 5, 5000⟩, "m", none⟩ true (Except.ok "g") true
        "h" "t" sampleWorld sampleProfile (some "hello")).generatorInvoked =
      false ∧
    (5000 : Nat) ≠ 0 := by decide

/-! ## C4: generation failure -/

/-- C4 (amended): when the generator fails on the no-override path of an
admitted send, the result is a failure carrying the error string,
`totalFailed` is incremented by exactly one, `totalSent` and `lastSentAt`
are unchanged, the window counters carry the values of the admission-time
rollover recomputation (unchanged except for a possible zeroing), the
recipient and the template list are untouched, and a history record with
`success = false` and the error is appended. -/
theorem send_generation_error_effects (now : Nat)
    (settings : AutomationSettings) (deliverOk : Bool)
    (histId templId : String) (w : WorldState) (profile : CustomerProfile)
    (e : String)
    (ha : (canSendMessage now settings w.limiter).2.allowed = true) :
    (sendMessage now settings true (Except.error e) deliverOk histId templId
      w profile none).result.success = false ∧
    (sendMessage now settings true (Except.error e) deliverOk histId templId
      w profile none).result.error =
        some ("Failed to generate message: " ++ e) ∧
    (sendMessage now settings true (Except.error e) deliverOk histId templId
      w profile none).world.limiter.stats.totalFailed =
        w.limiter.stats.totalFailed + 1 ∧
    (sendMessage now settings true (Except.error e) deliverOk histId templId
      w profile none).world.limiter.stats.totalSent =
        w.limiter.stats.totalSent ∧
    (sendMessage now settings true (Except.error e) deliverOk histId templId
      w profile none).world.limiter.stats.lastSentAt =
        w.limiter.stats.lastSentAt ∧
    (sendMessage now settings true (Except.error e) deliverOk histId templId
      w profile none).world.limiter.stats.messagesToday =
        (updateTimeBasedCounts now w.limiter.stats).messagesToday ∧
    (sendMessage now settings true (Except.error e) deliverOk histId templId
      w profile none).world.limiter.stats.messagesThisHour =
        (updateTimeBasedCounts now w.limiter.stats).messagesThisHour ∧
    (sendMessage now settings true (Except.error e) deliverOk histId templId
      w profile none).profile = profile ∧
    (sendMessage now settings true (Except.error e) deliverOk histId templId
      w profile none).world.profiles = w.profiles ∧
    (sendMessage now settings true (Except.error e) deliverOk histId templId
      w profile none).world.messageTemplates = w.messageTemplates ∧
    (sendMessage now settings true (Except.error e) deliverOk histId templId
      w profile none).world.messageHistory =
        saveMessageHistory histId now settings profile "" false
          (some ("Failed to generate: " ++ e)) w.messageHistory ∧
    (w.messageHistory.length < 500 →
      (sendMessage now settings true (Except.error e) deliverOk histId templId
        w profile none).world.messageHistory =
          w.messageHistory ++
            [⟨histId, profile.id, profile.name, "", now, false,
              some ("Failed to generate: " ++ e),
              some settings.openaiModel⟩]) ∧
    (sendMessage now settings true (Except.error e) deliverOk histId templId
      w profile none).generatorInvoked = true := by
  obtain ⟨hs1, hs2, hs3, _, _⟩ := updateTimeBasedCounts_spec now w.limiter.stats
  have hsend : sendMessage now settings true (Except.error e) deliverOk
      histId templId w profile none =
      ⟨⟨false, none, some ("Failed to generate message: " ++ e)⟩,
        ⟨recordMessageFailed (canSendMessage now settings w.limiter).1,
          saveMessageHistory histId now settings profile "" false
            (some ("Failed to generate: " ++ e)) w.messageHistory,
          w.messageTemplates, w.profiles⟩,
        profile, true, 0⟩ := by
    simp [sendMessage, ha, jsTruthy]
  have hcap : w.messageHistory.length < 500 →
      saveMessageHistory histId now settings profile "" false
        (some ("Failed to generate: " ++ e)) w.messageHistory =
      w.messageHistory ++
        [⟨histId, profile.id, profile.name, "", now, false,
          some ("Failed to generate: " ++ e), some settings.openaiModel⟩] := by
    intro hlen
    have hno : ¬ (w.messageHistory ++
        [(⟨histId, profile.id, profile.name, "", now, false,
          some ("Failed to generate: " ++ e),
          some settings.openaiModel⟩ : MessageHistory)]).length > 500 := by
      simp only [List.length_append, List.length_cons, List.length_nil]
      omega
    unfold saveMessageHistory
    dsimp only
    rw [if_neg hno]
  rw [hsend, canSendMessage_fst]
  exact ⟨rfl, rfl, by simp [recordMessageFailed, hs2], by
      simp [recordMessageFailed, hs1], by simp [recordMessageFailed, hs3],
    by simp [recordMessageFailed], by simp [recordMessageFailed], rfl, rfl,
    rfl, rfl, fun hlen => hcap hlen, rfl⟩

/-- Witness for C4's amended theorem: from the zero-initialized world a
generation failure yields a failed result. -/
theorem send_generation_error_effects_witness :
    (sendMessage 0 ⟨⟨5, 5, 0⟩, "m", none⟩ true (Except.error "boom") true
        "h" "t" sampleWorld sampleProfile none).result.success = false :=
  (send_generation_error_effects 0 ⟨⟨5, 5, 0⟩, "m", none⟩ true "h" "t"
    sampleWorld sampleProfile "boom" (by decide)).1

/-- Counterexample for C4 as stated: an admitted send whose generation
fails two hours after the last send — `totalFailed` becomes 1 and
`totalSent` stays 5 as the claim says, but the in-memory hourly window
counter was zeroed by the admission-time rollover (2 before the call, 0
after), so "the window counters are unchanged" is false. -/
theorem send_generation_error_window_counterexample :
    (sendMessage 7200000 ⟨⟨5, 10, 0⟩, "m", none⟩ true (Except.error "boom")
        true "h" "t" midDayWorld sampleProfile none).result.success = false ∧
    (sendMessage 7200000 ⟨⟨5, 10, 0⟩, "m", none⟩ true (Except.error "boom")
        true "h" "t" midDayWorld sampleProfile none).world.limiter.stats.totalFailed = 1 ∧
    (sendMessage 7200000 ⟨⟨5, 10, 0⟩, "m", none⟩ true (Except.error "boom")
        true "h" "t" midDayWorld sampleProfile none).world.limiter.stats.totalSent = 5 ∧
    (sendMessage 7200000 ⟨⟨5, 10, 0⟩, "m", none⟩ true (Except.error "boom")
        true "h" "t" midDayWorld sampleProfile none).world.limiter.stats.messagesThisHour = 0 ∧
    midDayWorld.limiter.stats.messagesThisHour = 2 := by decide

/-! ## C10: the empty-string override -/

/-- C10: an empty `overrideContent` is falsy, so `sendMessage` with
`some ""` behaves exactly like `sendMessage` with no override — on an
admitted, configured send with a successful generation it invokes the
generator and delivers the template-transformed generated text, not the
empty string. -/
theorem send_empty_override_uses_generator (now : Nat)
    (settings : AutomationSettings) (configured : Bool)
    (genResult : Except String String) (deliverOk : Bool)
    (histId templId : String) (w : WorldState) (profile : CustomerProfile)
    (g : String) :
    sendMessage now settings configured genResult deliverOk histId templId
        w profile (some "") =
      sendMessage now settings configured genResult deliverOk histId templId
        w profile none ∧
    ((canSendMessage now settings w.limiter).2.allowed = true →
      (sendMessage now settings true (Except.ok g) true histId templId
        w profile (some "")).generatorInvoked = true ∧
      (sendMessage now settings true (Except.ok g) true histId templId
        w profile (some "")).result.message =
          some (applyNameTemplate settings g profile)) := by
  constructor
  · simp [sendMessage, jsTruthy]
  · intro ha
    have hsend : sendMessage now settings true (Except.ok g) true histId
        templId w profile (some "") =
        deliverPhase now settings true histId templId
          { w with limiter := (canSendMessage now settings w.limiter).1 }
          profile (applyNameTemplate settings g profile) true := by
      simp [sendMessage, ha, jsTruthy]
    rw [hsend]
    exact ⟨deliverPhase_generatorInvoked _ _ _ _ _ _ _ _ _,
      by rw [deliverPhase_result_ok]⟩

/-- Witness for C10 at a concrete admitted state: the generator runs even
though an (empty) override was passed. -/
theorem send_empty_override_witness :
    (sendMessage 0 ⟨⟨5, 5, 0⟩, "m", none⟩ true (Except.ok "nice to meet you")
        true "h" "t" sampleWorld sampleProfile (some "")).generatorInvoked =
      true :=
  ((send_empty_override_uses_generator 0 ⟨⟨5, 5, 0⟩, "m", none⟩ true
    (Except.ok "nice to meet you") true "h" "t" sampleWorld sampleProfile
    "nice to meet you").2 (by decide)).1

end AMS
